import Mathlib

/-!
Verification of the PeakOps Automation form-submission pipeline
(`src/app.py`): email validation, route handlers for the four
form routes, the notification forwarder, security headers, the
per-route rate limit and the secret-key fallback.

Strings are modelled as `List Char`; Python `str.strip()` becomes
`pyStrip`, the anchored email regex becomes the executable matcher
`emailRegexMatch`, and each Flask view function becomes a pure Lean
function from the submitted form (a partial map from field name to
raw value) to a `HandlerResult` describing the response.
-/

namespace PeakOps

/-- Whitespace characters removed by Python `str.strip()` (ASCII range). -/
def isPyWhitespace (c : Char) : Bool :=
  c == ' ' || c == '\t' || c == '\n' || c == '\r' || c == '\x0b' || c == '\x0c'

/-- Remove trailing whitespace, as the second half of Python `str.strip()`. -/
def pyStripEnd (l : List Char) : List Char :=
  (l.reverse.dropWhile isPyWhitespace).reverse

/-- Python `str.strip()`: drop leading and trailing whitespace. -/
def pyStrip (l : List Char) : List Char :=
  pyStripEnd (l.dropWhile isPyWhitespace)

/-- Characters allowed in the regex class before the `@`: `[a-zA-Z0-9._%+-]`. -/
def isLocalChar (c : Char) : Bool :=
  c.isAlpha || c.isDigit || c == '.' || c == '_' || c == '%' || c == '+' || c == '-'

/-- Characters allowed in the regex class after the `@`: `[a-zA-Z0-9.-]`. -/
def isDomainChar (c : Char) : Bool :=
  c.isAlpha || c.isDigit || c == '.' || c == '-'

/-- Match the tail of the regex after the `@`: `[a-zA-Z0-9.-]+\.[a-zA-Z]\x7b2,\x7d`
anchored at the end.  The final alphabetic run is found from the right,
which is equivalent to the regex because a dot is not alphabetic. -/
def checkDomainTail (ds : List Char) : Bool :=
  (ds.reverse.dropWhile Char.isAlpha).head? == some '.'
    && decide (2 ≤ (ds.reverse.takeWhile Char.isAlpha).length)
    && !(ds.reverse.dropWhile Char.isAlpha).tail.isEmpty
    && (ds.reverse.dropWhile Char.isAlpha).tail.all isDomainChar

/-- Executable matcher for `EMAIL_REGEX` from `src/app.py` line 29:
`^[a-zA-Z0-9._%+-]+@[a-zA-Z0-9.-]+\.[a-zA-Z]\x7b2,\x7d$`.
The local part is the maximal run of local characters, which agrees with
the regex because `@` is not a local character. -/
def emailRegexMatch (s : List Char) : Bool :=
  (s.dropWhile isLocalChar).head? == some '@'
    && !(s.takeWhile isLocalChar).isEmpty
    && checkDomainTail (s.dropWhile isLocalChar).tail

/-- `is_valid_email` from `src/app.py`: strip surrounding whitespace, then
match the anchored email regex. -/
def is_valid_email (s : List Char) : Bool :=
  emailRegexMatch (pyStrip s)

/-- Declarative reading of the email pattern, as the spec words it:
one-or-more local characters, `@`, one-or-more domain characters,
a literal dot, then two-or-more alphabetic characters, anchored at
both ends. -/
def matchesEmailPattern (s : List Char) : Prop :=
  ∃ lp dom tld : List Char,
    s = lp ++ '@' :: (dom ++ '.' :: tld) ∧
    lp ≠ [] ∧ (∀ c ∈ lp, isLocalChar c = true) ∧
    dom ≠ [] ∧ (∀ c ∈ dom, isDomainChar c = true) ∧
    2 ≤ tld.length ∧ (∀ c ∈ tld, c.isAlpha = true)

/-! ### Notification forwarder: `log_to_google_sheets` -/

/-- Outcome of the outbound `requests.post` call, supplied as an oracle. -/
inductive NetOutcome where
  | timeout
  | connectionError
  | response (status : Nat) (body : String)
deriving DecidableEq

/-- A log line emitted through `app.logger`. -/
inductive LogLine where
  | warning (msg : String)
  | info (msg : String)
  | error (msg : String)
deriving DecidableEq

/-- Exceptions the body of the try block in `log_to_google_sheets` can raise. -/
inductive PyExc where
  | timeoutError
  | connectionError
  | httpError (status : Nat)
deriving DecidableEq

/-- `requests.exceptions.Timeout`, `ConnectionError` and `HTTPError` are all
subclasses of `requests.exceptions.RequestException`, so the except clause
catches each of them. -/
def isRequestException : PyExc → Bool
  | PyExc.timeoutError => true
  | PyExc.connectionError => true
  | PyExc.httpError _ => true

/-- `requests.post(url, json=form_data, timeout=10)` followed by
`resp.raise_for_status()`: a timeout or connection failure raises, and
`raise_for_status` raises `HTTPError` exactly for 4xx/5xx status codes. -/
def postAndRaiseForStatus (net : NetOutcome) : Except PyExc (Nat × String) :=
  match net with
  | NetOutcome.timeout => Except.error PyExc.timeoutError
  | NetOutcome.connectionError => Except.error PyExc.connectionError
  | NetOutcome.response st body =>
      if 400 ≤ st ∧ st < 600 then Except.error (PyExc.httpError st)
      else Except.ok (st, body)

/-- What a call to `log_to_google_sheets` did: whether an exception escaped
to the caller, whether a network call was attempted, and the log lines. -/
structure ForwardResult where
  raised : Bool
  posted : Bool
  log : List LogLine
deriving DecidableEq

/-- `log_to_google_sheets` from `src/app.py` lines 124-140.  `url` is the
`G_SHEETS_WEBHOOK_URL` configuration value (`if not url` treats both an
unset and an empty value as absent), `form_data` the submission payload
(serialized as JSON; it does not influence control flow), and `net` the
oracle for the outbound call. -/
def log_to_google_sheets (url : Option String)
    (form_data : List (String × List Char)) (net : NetOutcome) : ForwardResult :=
  if url = none ∨ url = some "" then
    { raised := false, posted := false,
      log := [LogLine.warning
        "G_SHEETS_WEBHOOK_URL not set; skipping Google Sheets logging."] }
  else
    match postAndRaiseForStatus net with
    | Except.ok _ =>
        { raised := false, posted := true,
          log := [LogLine.info "Logged to Google Sheets successfully"] }
    | Except.error e =>
        if isRequestException e then
          { raised := false, posted := true,
            log := [LogLine.error "Error logging to Google Sheets"] }
        else
          { raised := true, posted := true, log := [] }

/-! ### Route handlers for the four form routes -/

/-- A one-shot flash message: `flash(msg, "error")` or `flash(msg, "success")`. -/
inductive Flash where
  | error (msg : String)
  | success (msg : String)
deriving DecidableEq

/-- What a POST handler produced: the payload handed to
`log_to_google_sheets` (if it was invoked), the outcome of that call, the
flashed message, and the HTTP status and redirect target. -/
structure HandlerResult where
  forwarded : Option (List (String × List Char))
  forwardResult : Option ForwardResult
  flash : Option Flash
  status : Nat
  location : String
deriving DecidableEq

/-- `request.form.get(key, "")` (and `request.form.get(key) or ""`):
a missing field reads as the empty string. -/
def getField (form : String → Option (List Char)) (k : String) : List Char :=
  (form k).getD []

/-- The rejection produced by each of the four routes on a missing or
invalid email: flash an error and redirect (302) back to the same route. -/
def emailErrorRedirect (path : String) : HandlerResult :=
  { forwarded := none, forwardResult := none,
    flash := some (Flash.error "Please enter a valid email address."),
    status := 302, location := path }

/-- POST branch of `workflow_checklist` (`src/app.py` lines 257-280). -/
def workflow_checklist_post (form : String → Option (List Char))
    (url : Option String) (net : NetOutcome) : HandlerResult :=
  let email := pyStrip (getField form "email")
  if email.isEmpty || !is_valid_email email then
    emailErrorRedirect "/workflow-checklist"
  else
    let payload := [("email", email), ("source", "Workflow Checklist".data)]
    let fr := log_to_google_sheets url payload net
    if fr.raised then
      { forwarded := some payload, forwardResult := some fr, flash := none,
        status := 500, location := "" }
    else
      { forwarded := some payload, forwardResult := some fr,
        flash := some (Flash.success "Thanks! Your checklist is downloading now."),
        status := 302, location := "/workflow-checklist?download=1" }

/-- POST branch of `top_10_automations` (`src/app.py` lines 293-307):
no success flash, and the redirect goes to the download endpoint. -/
def top_10_automations_post (form : String → Option (List Char))
    (url : Option String) (net : NetOutcome) : HandlerResult :=
  let email := pyStrip (getField form "email")
  if email.isEmpty || !is_valid_email email then
    emailErrorRedirect "/top-10-automations"
  else
    let payload := [("email", email), ("source", "Top 10 Automations Guide".data)]
    let fr := log_to_google_sheets url payload net
    if fr.raised then
      { forwarded := some payload, forwardResult := some fr, flash := none,
        status := 500, location := "" }
    else
      { forwarded := some payload, forwardResult := some fr, flash := none,
        status := 302, location := "/top-10-automations/download" }

/-- POST branch of `automation_guide` (`src/app.py` lines 320-343). -/
def automation_guide_post (form : String → Option (List Char))
    (url : Option String) (net : NetOutcome) : HandlerResult :=
  let email := pyStrip (getField form "email")
  if email.isEmpty || !is_valid_email email then
    emailErrorRedirect "/automation-guide"
  else
    let payload := [("email", email), ("source", "Automation Guide".data)]
    let fr := log_to_google_sheets url payload net
    if fr.raised then
      { forwarded := some payload, forwardResult := some fr, flash := none,
        status := 500, location := "" }
    else
      { forwarded := some payload, forwardResult := some fr,
        flash := some (Flash.success "Thanks for downloading the Automation Playbook!"),
        status := 302, location := "/automation-guide?download=1" }

/-- POST branch of `contact` (`src/app.py` lines 345-372): only `email` is
validated; the payload carries the seven trimmed form fields and no
`source` tag. -/
def contact_post (form : String → Option (List Char))
    (url : Option String) (net : NetOutcome) : HandlerResult :=
  let email := pyStrip (getField form "email")
  if email.isEmpty || !is_valid_email email then
    emailErrorRedirect "/contact"
  else
    let payload := [
      ("name", pyStrip (getField form "name")),
      ("email", email),
      ("company", pyStrip (getField form "company")),
      ("role", pyStrip (getField form "role")),
      ("improvements", pyStrip (getField form "improvements")),
      ("current_process", pyStrip (getField form "current_process")),
      ("budget", pyStrip (getField form "budget"))]
    let fr := log_to_google_sheets url payload net
    if fr.raised then
      { forwarded := some payload, forwardResult := some fr, flash := none,
        status := 500, location := "" }
    else
      { forwarded := some payload, forwardResult := some fr,
        flash := some (Flash.success
          "Thanks, your message has been received. We\x27ll get back to you shortly."),
        status := 302, location := "/contact" }

/-- The four form-submitting routes. -/
inductive FormRoute where
  | workflowChecklist
  | top10Automations
  | automationGuide
  | contact
deriving DecidableEq

/-- The URL path of each form route. -/
def routePath : FormRoute → String
  | FormRoute.workflowChecklist => "/workflow-checklist"
  | FormRoute.top10Automations => "/top-10-automations"
  | FormRoute.automationGuide => "/automation-guide"
  | FormRoute.contact => "/contact"

/-- Dispatch a POST on a form route to its view function. -/
def handlePost : FormRoute → (String → Option (List Char)) → Option String →
    NetOutcome → HandlerResult
  | FormRoute.workflowChecklist => workflow_checklist_post
  | FormRoute.top10Automations => top_10_automations_post
  | FormRoute.automationGuide => automation_guide_post
  | FormRoute.contact => contact_post

/-! ### Security headers (`add_security_headers`) -/

/-- `response.headers.setdefault(k, v)`: add the pair only when the key is
not already present. -/
def setdefaultHeader (hs : List (String × String)) (k v : String) :
    List (String × String) :=
  if (hs.lookup k).isSome then hs else hs ++ [(k, v)]

/-- The five header pairs set by `add_security_headers` in `src/app.py`. -/
def securityHeaderPairs : List (String × String) :=
  [("X-Frame-Options", "SAMEORIGIN"),
   ("X-Content-Type-Options", "nosniff"),
   ("Referrer-Policy", "strict-origin-when-cross-origin"),
   ("X-XSS-Protection", "1; mode=block"),
   ("Strict-Transport-Security", "max-age=31536000; includeSubDomains")]

/-- `add_security_headers` from `src/app.py` lines 142-150, applied by Flask
to every response via `after_request`. -/
def add_security_headers (hs : List (String × String)) : List (String × String) :=
  setdefaultHeader (setdefaultHeader (setdefaultHeader (setdefaultHeader
    (setdefaultHeader hs
      "X-Frame-Options" "SAMEORIGIN")
      "X-Content-Type-Options" "nosniff")
      "Referrer-Policy" "strict-origin-when-cross-origin")
      "X-XSS-Protection" "1; mode=block")
      "Strict-Transport-Security" "max-age=31536000; includeSubDomains"

/-! ### Secret key fallback and one-shot flash state -/

/-- `app.secret_key` from `src/app.py` line 18:
`os.environ.get("FLASK_SECRET_KEY", "change-this-secret-key")`. -/
def secret_key (env : String → Option String) : String :=
  (env "FLASK_SECRET_KEY").getD "change-this-secret-key"

/-- Modelled from the spec: the one-shot flash-message state is signed with
the application secret key (Flask session signing is framework code, not
part of src/).  A signed session is modelled as the stored messages
together with the key that signed them. -/
structure SignedSession where
  payload : List String
  signedWith : String
deriving DecidableEq

/-- Modelled from the spec: signing the flash state with the secret key. -/
def signSession (key : String) (msgs : List String) : SignedSession :=
  { payload := msgs, signedWith := key }

/-- Modelled from the spec: reading the flash state back; verification
succeeds exactly when the session was signed with the same key. -/
def readSession (key : String) (s : SignedSession) : Option (List String) :=
  if s.signedWith = key then some s.payload else none

/-- One-shot message cycle: flash a message, then consume it on the next
request, both under the same signing key. -/
def flashRoundtrip (key : String) (msg : String) : Option (List String) :=
  readSession key (signSession key [msg])

/-! ### Rate limiter for the form routes -/

/-- Modelled from the spec: the enforcement of
`@limiter.limit("5 per minute")` lives in the flask-limiter library, not
under src/; src declares the policy (at most 5 submissions per minute,
keyed by the client address via `get_remote_address`, on each of the four
form routes).  The spec describes a per-minute window per client address
that resets at window boundaries; the window opens at the first request it
counts.  One `LimiterState` tracks one (client address, route) pair. -/
structure LimiterState where
  windowStart : Nat
  count : Nat
deriving DecidableEq

/-- Modelled from the spec: one request at time `t` (seconds) against the
per-minute cap; returns whether it is allowed and the new state. -/
def limiterHit : Option LimiterState → Nat → Bool × Option LimiterState
  | none, t => (true, some { windowStart := t, count := 1 })
  | some st, t =>
      if st.windowStart + 60 ≤ t then (true, some { windowStart := t, count := 1 })
      else if st.count < 5 then
        (true, some { windowStart := st.windowStart, count := st.count + 1 })
      else (false, some st)

/-- Outcome of one inbound POST: rejected by the rate limiter (HTTP 429,
no form handling at all) or handled by the view function. -/
inductive RequestResult where
  | rateLimited
  | handled (r : HandlerResult)
deriving DecidableEq

/-- HTTP status of a request outcome. -/
def requestStatus : RequestResult → Nat
  | RequestResult.rateLimited => 429
  | RequestResult.handled r => r.status

/-- One rate-limited POST to a form route: the limiter decorator runs
before the view function. -/
def handleRequest (r : FormRoute) (st : Option LimiterState) (t : Nat)
    (form : String → Option (List Char)) (url : Option String)
    (net : NetOutcome) : Option LimiterState × RequestResult :=
  match limiterHit st t with
  | (true, st') => (st', RequestResult.handled (handlePost r form url net))
  | (false, st') => (st', RequestResult.rateLimited)

/-- Process a sequence of timed POSTs from one client to one form route. -/
def runRequests (r : FormRoute) (url : Option String) (net : NetOutcome) :
    Option LimiterState → List (Nat × (String → Option (List Char))) →
    List RequestResult
  | _, [] => []
  | st, (t, f) :: rest =>
      match handleRequest r st t f url net with
      | (st', res) => res :: runRequests r url net st' rest

/-! ### Concrete submissions used to instantiate the theorems -/

/-- A submission whose only field is a syntactically valid email. -/
def goodForm : String → Option (List Char) := fun k =>
  if k = "email" then some "user@example.com".data else none

/-- A submission whose email is not syntactically valid. -/
def badForm : String → Option (List Char) := fun k =>
  if k = "email" then some "not-an-email".data else none

/-- A complete contact-form submission with name and improvements filled in. -/
def fullContactForm : String → Option (List Char) := fun k =>
  if k = "email" then some "john@example.com".data
  else if k = "name" then some "John Doe".data
  else if k = "improvements" then some "We need automation".data
  else none

/-- A submission with no fields at all. -/
def emptyForm : String → Option (List Char) := fun _ => none

/-- The user-visible part of a handler outcome: flash message, HTTP status
and redirect target. -/
def handlerResponse (h : HandlerResult) : Option Flash × Nat × String :=
  (h.flash, h.status, h.location)

/-- An environment with no variables set. -/
def emptyEnv : String → Option String := fun _ => none

/-! ### List facts used for stripping and matching -/

theorem dropWhile_idem (p : Char → Bool) (l : List Char) :
    (l.dropWhile p).dropWhile p = l.dropWhile p := by
  induction l with
  | nil => rfl
  | cons c u ih =>
    cases h : p c
    · simp [List.dropWhile_cons, h]
    · simp [List.dropWhile_cons, h, ih]

theorem dropWhile_suffix_decomp (p : Char → Bool) (l : List Char) :
    ∃ t, l = t ++ l.dropWhile p := by
  induction l with
  | nil => exact ⟨[], rfl⟩
  | cons c u ih =>
    cases h : p c
    · exact ⟨[], by simp [List.dropWhile_cons, h]⟩
    · obtain ⟨t, ht⟩ := ih
      refine ⟨c :: t, ?_⟩
      simpa [List.dropWhile_cons, h] using ht

theorem dropWhile_head_false (p : Char → Bool) (c : Char) (u : List Char)
    (h : (c :: u).dropWhile p = c :: u) : p c = false := by
  cases hc : p c
  · rfl
  · exfalso
    rw [List.dropWhile_cons, if_pos hc] at h
    have hle := (List.dropWhile_sublist (l := u) p).length_le
    rw [h] at hle
    simp at hle

theorem pyStripEnd_keeps_clean_head (l : List Char)
    (h : l.dropWhile isPyWhitespace = l) :
    (pyStripEnd l).dropWhile isPyWhitespace = pyStripEnd l := by
  obtain ⟨t, ht⟩ := dropWhile_suffix_decomp isPyWhitespace l.reverse
  cases hd : (l.reverse.dropWhile isPyWhitespace).reverse with
  | nil => simp [pyStripEnd, hd]
  | cons c u =>
    have hl : l = c :: (u ++ t.reverse) := by
      calc l = l.reverse.reverse := (List.reverse_reverse l).symm
        _ = (t ++ l.reverse.dropWhile isPyWhitespace).reverse := by rw [← ht]
        _ = (l.reverse.dropWhile isPyWhitespace).reverse ++ t.reverse := by
              rw [List.reverse_append]
        _ = c :: (u ++ t.reverse) := by rw [hd]; rfl
    rw [hl] at h
    have hc := dropWhile_head_false isPyWhitespace c (u ++ t.reverse) h
    simp [pyStripEnd, hd, List.dropWhile_cons, hc]

theorem pyStripEnd_idem (l : List Char) :
    pyStripEnd (pyStripEnd l) = pyStripEnd l := by
  simp [pyStripEnd, List.reverse_reverse, dropWhile_idem]

theorem pyStrip_idem (l : List Char) : pyStrip (pyStrip l) = pyStrip l := by
  unfold pyStrip
  rw [pyStripEnd_keeps_clean_head _ (dropWhile_idem _ _), pyStripEnd_idem]

theorem mem_of_mem_pyStrip (c : Char) (l : List Char) (h : c ∈ pyStrip l) :
    c ∈ l := by
  unfold pyStrip pyStripEnd at h
  rw [List.mem_reverse] at h
  have h2 := (List.dropWhile_sublist isPyWhitespace).mem h
  rw [List.mem_reverse] at h2
  exact (List.dropWhile_sublist isPyWhitespace).mem h2

theorem takeWhile_all_append (p : Char → Bool) (l r : List Char)
    (h : ∀ c ∈ l, p c = true) :
    (l ++ r).takeWhile p = l ++ r.takeWhile p := by
  induction l with
  | nil => simp
  | cons c u ih =>
    simp only [List.cons_append, List.takeWhile_cons, h c (by simp), if_pos]
    rw [ih (fun d hd => h d (by simp [hd]))]

theorem dropWhile_all_append (p : Char → Bool) (l r : List Char)
    (h : ∀ c ∈ l, p c = true) :
    (l ++ r).dropWhile p = r.dropWhile p := by
  induction l with
  | nil => simp
  | cons c u ih =>
    simp only [List.cons_append, List.dropWhile_cons, h c (by simp), if_pos]
    exact ih (fun d hd => h d (by simp [hd]))

/-! ### The matcher agrees with the declarative pattern -/

theorem checkDomainTail_iff (ds : List Char) :
    checkDomainTail ds = true ↔
      ∃ dom tld : List Char,
        ds = dom ++ '.' :: tld ∧ dom ≠ [] ∧
        (∀ c ∈ dom, isDomainChar c = true) ∧
        2 ≤ tld.length ∧ (∀ c ∈ tld, c.isAlpha = true) := by
  constructor
  · intro h
    unfold checkDomainTail at h
    cases hsplit : ds.reverse.dropWhile Char.isAlpha with
    | nil => rw [hsplit] at h; simp at h
    | cons d rest =>
      rw [hsplit] at h
      simp only [List.head?_cons, List.tail_cons, Bool.and_eq_true, beq_iff_eq,
        Option.some.injEq, decide_eq_true_eq, Bool.not_eq_true',
        List.isEmpty_eq_false, List.all_eq_true] at h
      obtain ⟨⟨⟨hd, hlen⟩, hne⟩, hall⟩ := h
      have hds : ds.reverse = ds.reverse.takeWhile Char.isAlpha ++ '.' :: rest := by
        conv_lhs => rw [← List.takeWhile_append_dropWhile Char.isAlpha ds.reverse]
        rw [hsplit, hd]
      refine ⟨rest.reverse, (ds.reverse.takeWhile Char.isAlpha).reverse, ?_, ?_, ?_, ?_, ?_⟩
      · calc ds = ds.reverse.reverse := (List.reverse_reverse ds).symm
          _ = (ds.reverse.takeWhile Char.isAlpha ++ '.' :: rest).reverse := by rw [← hds]
          _ = rest.reverse ++ '.' :: (ds.reverse.takeWhile Char.isAlpha).reverse := by
                simp [List.reverse_append]
      · simpa using hne
      · intro c hc
        exact hall c (List.mem_reverse.mp hc)
      · simpa using hlen
      · intro c hc
        exact List.mem_takeWhile_imp (List.mem_reverse.mp hc)
  · rintro ⟨dom, tld, rfl, hdne, hdall, hlen, htall⟩
    have hrev : (dom ++ '.' :: tld).reverse = tld.reverse ++ '.' :: dom.reverse := by
      simp [List.reverse_append]
    have htr : ∀ c ∈ tld.reverse, Char.isAlpha c = true := by
      intro c hc; exact htall c (List.mem_reverse.mp hc)
    have hdrop : (dom ++ '.' :: tld).reverse.dropWhile Char.isAlpha = '.' :: dom.reverse := by
      rw [hrev, dropWhile_all_append Char.isAlpha tld.reverse ('.' :: dom.reverse) htr,
        List.dropWhile_cons, if_neg]
      simp
    have htake : (dom ++ '.' :: tld).reverse.takeWhile Char.isAlpha = tld.reverse := by
      rw [hrev, takeWhile_all_append Char.isAlpha tld.reverse ('.' :: dom.reverse) htr,
        List.takeWhile_cons, if_neg]
      · simp
      · simp
    unfold checkDomainTail
    rw [hdrop, htake]
    simp only [List.head?_cons, List.tail_cons]
    have h1 : 2 ≤ tld.reverse.length := by simpa using hlen
    have h2 : dom.reverse.isEmpty = false := by simp [List.isEmpty_eq_false, hdne]
    have h3 : dom.reverse.all isDomainChar = true := by
      rw [List.all_eq_true]
      intro c hc
      exact hdall c (List.mem_reverse.mp hc)
    simp [h1, h2, h3, hlen]

theorem emailRegexMatch_iff (s : List Char) :
    emailRegexMatch s = true ↔ matchesEmailPattern s := by
  constructor
  · intro h
    unfold emailRegexMatch at h
    simp only [Bool.and_eq_true, beq_iff_eq, Bool.not_eq_true',
      List.isEmpty_eq_false] at h
    obtain ⟨⟨hhead, hne⟩, hdom⟩ := h
    cases hrest : s.dropWhile isLocalChar with
    | nil => rw [hrest] at hhead; simp at hhead
    | cons c ds =>
      rw [hrest] at hhead hdom
      simp only [List.head?_cons, Option.some.injEq] at hhead
      simp only [List.tail_cons] at hdom
      obtain ⟨dom, tld, hds, hdne, hdall, hlen, htall⟩ :=
        (checkDomainTail_iff ds).mp hdom
      refine ⟨s.takeWhile isLocalChar, dom, tld, ?_, hne, ?_, hdne, hdall, hlen, htall⟩
      · calc s = s.takeWhile isLocalChar ++ s.dropWhile isLocalChar :=
              (List.takeWhile_append_dropWhile isLocalChar s).symm
          _ = s.takeWhile isLocalChar ++ '@' :: (dom ++ '.' :: tld) := by
              rw [hrest, hhead, hds]
      · intro c hc
        exact List.mem_takeWhile_imp hc
  · rintro ⟨lp, dom, tld, rfl, hlp, hlpall, hdne, hdall, hlen, htall⟩
    have hdrop : (lp ++ '@' :: (dom ++ '.' :: tld)).dropWhile isLocalChar
        = '@' :: (dom ++ '.' :: tld) := by
      rw [dropWhile_all_append isLocalChar lp _ hlpall, List.dropWhile_cons, if_neg]
      simp [isLocalChar]
    have htake : (lp ++ '@' :: (dom ++ '.' :: tld)).takeWhile isLocalChar = lp := by
      rw [takeWhile_all_append isLocalChar lp _ hlpall, List.takeWhile_cons, if_neg]
      · simp
      · simp [isLocalChar]
    unfold emailRegexMatch
    rw [hdrop, htake]
    simp only [List.head?_cons, List.tail_cons]
    have h2 : lp.isEmpty = false := by simp [List.isEmpty_eq_false, hlp]
    have h3 := (checkDomainTail_iff (dom ++ '.' :: tld)).mpr
      ⟨dom, tld, rfl, hdne, hdall, hlen, htall⟩
    simp [h2, h3]

theorem at_mem_of_valid (s : List Char) (h : is_valid_email s = true) : '@' ∈ s := by
  have hp := (emailRegexMatch_iff (pyStrip s)).mp h
  obtain ⟨lp, dom, tld, hs, -⟩ := hp
  apply mem_of_mem_pyStrip
  rw [hs]
  simp

theorem isRequestException_true (e : PyExc) : isRequestException e = true := by
  cases e <;> rfl

theorem log_never_raises (url : Option String)
    (form_data : List (String × List Char)) (net : NetOutcome) :
    (log_to_google_sheets url form_data net).raised = false := by
  unfold log_to_google_sheets
  by_cases hu : url = none ∨ url = some ""
  · simp [hu]
  · cases h : postAndRaiseForStatus net with
    | ok v => simp [hu, h]
    | error e => simp [hu, h, isRequestException_true]

theorem lookup_append_none (k : String) (l r : List (String × String))
    (h : l.lookup k = none) : (l ++ r).lookup k = r.lookup k := by
  induction l with
  | nil => simp
  | cons a t ih =>
    obtain ⟨ak, av⟩ := a
    cases hk : (k == ak) with
    | true => simp [List.lookup, hk] at h
    | false =>
      simp only [List.lookup, hk] at h
      simp only [List.cons_append, List.lookup, hk]
      exact ih h

theorem lookup_append_left (k : String) (v : String) (l r : List (String × String))
    (h : l.lookup k = some v) : (l ++ r).lookup k = some v := by
  induction l with
  | nil => simp at h
  | cons a t ih =>
    obtain ⟨ak, av⟩ := a
    cases hk : (k == ak) with
    | true =>
      simp only [List.lookup, hk] at h
      simp only [List.cons_append, List.lookup, hk]
      exact h
    | false =>
      simp only [List.lookup, hk] at h
      simp only [List.cons_append, List.lookup, hk]
      exact ih h

theorem setdefault_of_none (hs : List (String × String)) (k v : String)
    (h : hs.lookup k = none) : setdefaultHeader hs k v = hs ++ [(k, v)] := by
  simp [setdefaultHeader, h]

theorem setdefault_isSome_self (hs : List (String × String)) (k v : String) :
    ((setdefaultHeader hs k v).lookup k).isSome = true := by
  cases h : hs.lookup k with
  | some w => simp [setdefaultHeader, h]
  | none =>
    rw [setdefault_of_none hs k v h, lookup_append_none k hs _ h]
    simp [List.lookup]

theorem setdefault_isSome_mono (hs : List (String × String)) (k v k' : String)
    (h : (hs.lookup k').isSome = true) :
    ((setdefaultHeader hs k v).lookup k').isSome = true := by
  cases hw : hs.lookup k' with
  | none => rw [hw] at h; simp at h
  | some w =>
    cases hc : hs.lookup k with
    | some u => simp [setdefaultHeader, hc, hw]
    | none =>
      rw [setdefault_of_none hs k v hc, lookup_append_left k' w hs _ hw]
      simp

/-! ### Whitespace insensitivity of the validator -/

theorem pyStrip_cons_space (s : List Char) : pyStrip (' ' :: s) = pyStrip s := by
  unfold pyStrip
  rw [show (' ' :: s).dropWhile isPyWhitespace = s.dropWhile isPyWhitespace from rfl]

theorem pyStrip_append_space (s : List Char) : pyStrip (s ++ [' ']) = pyStrip s := by
  unfold pyStrip
  rw [List.dropWhile_append]
  cases hx : (s.dropWhile isPyWhitespace).isEmpty
  · rw [if_neg (by simp [hx])]
    unfold pyStripEnd
    rw [List.reverse_append]
    rw [show ([' '].reverse ++ (s.dropWhile isPyWhitespace).reverse).dropWhile isPyWhitespace
        = (s.dropWhile isPyWhitespace).reverse.dropWhile isPyWhitespace from rfl]
  · rw [if_pos (by simp [hx])]
    rw [List.isEmpty_iff] at hx
    rw [hx]
    rfl

theorem is_valid_email_cons_space (s : List Char) :
    is_valid_email (' ' :: s) = is_valid_email s := by
  unfold is_valid_email
  rw [pyStrip_cons_space]

theorem is_valid_email_append_space (s : List Char) :
    is_valid_email (s ++ [' ']) = is_valid_email s := by
  unfold is_valid_email
  rw [pyStrip_append_space]

theorem is_valid_email_no_at (s : List Char) (h : '@' ∉ s) :
    is_valid_email s = false := by
  cases hv : is_valid_email s
  · rfl
  · exact absurd (at_mem_of_valid s hv) h

theorem is_valid_email_all_whitespace (s : List Char)
    (h : ∀ c ∈ s, isPyWhitespace c = true) :
    is_valid_email s = false := by
  apply is_valid_email_no_at
  intro hmem
  have := h '@' hmem
  simp [isPyWhitespace] at this

/-! ### Claim theorems -/

/-- C1: On each of the four form routes, a POST whose trimmed email is
empty or fails `is_valid_email` produces exactly the error outcome: no
forwarding call, a one-shot error flash, and a 302 redirect back to the
same route; and conversely any payload that reaches
`log_to_google_sheets` from a route handler carries an email that is
non-empty, trimmed, and valid. -/
theorem C1_email_gate (r : FormRoute) (form : String → Option (List Char))
    (url : Option String) (net : NetOutcome) :
    (pyStrip (getField form "email") = [] ∨
        is_valid_email (pyStrip (getField form "email")) = false →
      handlePost r form url net = emailErrorRedirect (routePath r)) ∧
    (∀ payload, (handlePost r form url net).forwarded = some payload →
      ∃ e, payload.lookup "email" = some e ∧ e ≠ [] ∧ pyStrip e = e ∧
        is_valid_email e = true) := by
  constructor
  · intro h
    have hc : ((pyStrip (getField form "email")).isEmpty
        || !is_valid_email (pyStrip (getField form "email"))) = true := by
      rcases h with h | h
      · simp [h]
      · simp [h]
    cases r <;>
      simp [handlePost, workflow_checklist_post, top_10_automations_post,
        automation_guide_post, contact_post, routePath, hc]
  · intro payload hp
    by_cases hc : ((pyStrip (getField form "email")).isEmpty
        || !is_valid_email (pyStrip (getField form "email"))) = true
    · exfalso
      cases r <;>
        simp [handlePost, workflow_checklist_post, top_10_automations_post,
          automation_guide_post, contact_post, hc, emailErrorRedirect] at hp
    · have hc2 : ((pyStrip (getField form "email")).isEmpty
          || !is_valid_email (pyStrip (getField form "email"))) = false := by
        simpa using hc
      rw [Bool.or_eq_false_iff] at hc2
      obtain ⟨he, hv⟩ := hc2
      have hne : pyStrip (getField form "email") ≠ [] := by
        rw [List.isEmpty_eq_false] at he
        exact he
      have hv2 : is_valid_email (pyStrip (getField form "email")) = true := by
        simpa using hv
      refine ⟨pyStrip (getField form "email"), ?_, hne,
        pyStrip_idem (getField form "email"), hv2⟩
      cases r <;>
        simp [handlePost, workflow_checklist_post, top_10_automations_post,
          automation_guide_post, contact_post, hc, log_never_raises] at hp <;>
        subst hp <;>
        simp [List.lookup]

/-- C1 witness: the gate fires on a concrete invalid submission to
/contact: the handler answers with the error redirect and no forward. -/
theorem C1_email_gate_witness :
    handlePost FormRoute.contact badForm none NetOutcome.timeout =
      emailErrorRedirect (routePath FormRoute.contact) :=
  (C1_email_gate FormRoute.contact badForm none NetOutcome.timeout).1
    (Or.inr (by decide))

theorem email_ok_cond (email : List Char) (hne : email ≠ [])
    (hv : is_valid_email email = true) :
    (email.isEmpty || !is_valid_email email) = false := by
  simp [List.isEmpty_eq_false, hne, hv]

theorem workflow_checklist_post_success (form : String → Option (List Char))
    (url : Option String) (net : NetOutcome)
    (hc : ((pyStrip (getField form "email")).isEmpty
      || !is_valid_email (pyStrip (getField form "email"))) = false) :
    workflow_checklist_post form url net =
      { forwarded := some [("email", pyStrip (getField form "email")),
          ("source", "Workflow Checklist".data)],
        forwardResult := some (log_to_google_sheets url
          [("email", pyStrip (getField form "email")),
           ("source", "Workflow Checklist".data)] net),
        flash := some (Flash.success "Thanks! Your checklist is downloading now."),
        status := 302, location := "/workflow-checklist?download=1" } := by
  simp [workflow_checklist_post, hc, log_never_raises]

theorem top_10_automations_post_success (form : String → Option (List Char))
    (url : Option String) (net : NetOutcome)
    (hc : ((pyStrip (getField form "email")).isEmpty
      || !is_valid_email (pyStrip (getField form "email"))) = false) :
    top_10_automations_post form url net =
      { forwarded := some [("email", pyStrip (getField form "email")),
          ("source", "Top 10 Automations Guide".data)],
        forwardResult := some (log_to_google_sheets url
          [("email", pyStrip (getField form "email")),
           ("source", "Top 10 Automations Guide".data)] net),
        flash := none,
        status := 302, location := "/top-10-automations/download" } := by
  simp [top_10_automations_post, hc, log_never_raises]

theorem automation_guide_post_success (form : String → Option (List Char))
    (url : Option String) (net : NetOutcome)
    (hc : ((pyStrip (getField form "email")).isEmpty
      || !is_valid_email (pyStrip (getField form "email"))) = false) :
    automation_guide_post form url net =
      { forwarded := some [("email", pyStrip (getField form "email")),
          ("source", "Automation Guide".data)],
        forwardResult := some (log_to_google_sheets url
          [("email", pyStrip (getField form "email")),
           ("source", "Automation Guide".data)] net),
        flash := some (Flash.success "Thanks for downloading the Automation Playbook!"),
        status := 302, location := "/automation-guide?download=1" } := by
  simp [automation_guide_post, hc, log_never_raises]

theorem contact_post_success (form : String → Option (List Char))
    (url : Option String) (net : NetOutcome)
    (hc : ((pyStrip (getField form "email")).isEmpty
      || !is_valid_email (pyStrip (getField form "email"))) = false) :
    contact_post form url net =
      { forwarded := some [
          ("name", pyStrip (getField form "name")),
          ("email", pyStrip (getField form "email")),
          ("company", pyStrip (getField form "company")),
          ("role", pyStrip (getField form "role")),
          ("improvements", pyStrip (getField form "improvements")),
          ("current_process", pyStrip (getField form "current_process")),
          ("budget", pyStrip (getField form "budget"))],
        forwardResult := some (log_to_google_sheets url [
          ("name", pyStrip (getField form "name")),
          ("email", pyStrip (getField form "email")),
          ("company", pyStrip (getField form "company")),
          ("role", pyStrip (getField form "role")),
          ("improvements", pyStrip (getField form "improvements")),
          ("current_process", pyStrip (getField form "current_process")),
          ("budget", pyStrip (getField form "budget"))] net),
        flash := some (Flash.success
          "Thanks, your message has been received. We\x27ll get back to you shortly."),
        status := 302, location := "/contact" } := by
  simp [contact_post, hc, log_never_raises]

/-- C2 counterexample: a POST to /contact whose email is valid but whose
`name` and `improvements` are missing (empty after trimming) is still
accepted: the forwarder is invoked and the handler answers with the
success flash and a 302 — the claimed rejection does not happen. -/
theorem C2_counterexample :
    (contact_post goodForm none (NetOutcome.response 200 "ok")).forwarded.isSome = true ∧
    (contact_post goodForm none (NetOutcome.response 200 "ok")).flash =
      some (Flash.success
        "Thanks, your message has been received. We\x27ll get back to you shortly.") ∧
    (contact_post goodForm none (NetOutcome.response 200 "ok")).status = 302 ∧
    pyStrip (getField goodForm "name") = [] ∧
    pyStrip (getField goodForm "improvements") = [] := by
  decide

/-- C2 (amended): the general contact form requires only `email`; `name`
and `improvements` are not validated.  Any POST with a non-empty valid
trimmed email is accepted — forwarded, success flash, HTTP 302 back to
/contact — whatever the other fields contain. -/
theorem C2_contact_requires_only_email (form : String → Option (List Char))
    (url : Option String) (net : NetOutcome)
    (hne : pyStrip (getField form "email") ≠ [])
    (hv : is_valid_email (pyStrip (getField form "email")) = true) :
    (contact_post form url net).forwarded.isSome = true ∧
    (contact_post form url net).flash =
      some (Flash.success
        "Thanks, your message has been received. We\x27ll get back to you shortly.") ∧
    (contact_post form url net).status = 302 ∧
    (contact_post form url net).location = "/contact" := by
  rw [contact_post_success form url net (email_ok_cond _ hne hv)]
  simp

/-- C2 witness: the amended claim evaluated on a concrete submission with
only an email field. -/
theorem C2_contact_requires_only_email_witness :
    (contact_post goodForm none NetOutcome.timeout).status = 302 ∧
    (contact_post goodForm none NetOutcome.timeout).location = "/contact" := by
  have h := C2_contact_requires_only_email goodForm none NetOutcome.timeout
    (by decide) (by decide)
  exact ⟨h.2.2.1, h.2.2.2⟩

/-- C3 counterexample: on /top-10-automations a valid submission is
forwarded, but the handler sets no success flash and redirects to the
download endpoint, not back to the same route — refuting the claim for
that route. -/
theorem C3_counterexample :
    (top_10_automations_post goodForm none (NetOutcome.response 200 "ok")).flash = none ∧
    (top_10_automations_post goodForm none (NetOutcome.response 200 "ok")).location ≠
      routePath FormRoute.top10Automations ∧
    (top_10_automations_post goodForm none (NetOutcome.response 200 "ok")).forwarded.isSome
      = true ∧
    pyStrip (getField goodForm "email") ≠ [] ∧
    is_valid_email (pyStrip (getField goodForm "email")) = true := by
  decide

/-- C3 (amended): on a POST with a non-empty valid email, every route
forwards the submission and answers 302; /workflow-checklist and
/automation-guide flash a success message and redirect back to themselves
with `?download=1`, /contact flashes a success message and redirects back
to /contact, while /top-10-automations sets no flash and redirects to its
download endpoint. -/
theorem C3_valid_submission_outcomes (form : String → Option (List Char))
    (url : Option String) (net : NetOutcome)
    (hne : pyStrip (getField form "email") ≠ [])
    (hv : is_valid_email (pyStrip (getField form "email")) = true) :
    ((workflow_checklist_post form url net).forwarded.isSome = true ∧
      (workflow_checklist_post form url net).flash =
        some (Flash.success "Thanks! Your checklist is downloading now.") ∧
      (workflow_checklist_post form url net).status = 302 ∧
      (workflow_checklist_post form url net).location = "/workflow-checklist?download=1") ∧
    ((automation_guide_post form url net).forwarded.isSome = true ∧
      (automation_guide_post form url net).flash =
        some (Flash.success "Thanks for downloading the Automation Playbook!") ∧
      (automation_guide_post form url net).status = 302 ∧
      (automation_guide_post form url net).location = "/automation-guide?download=1") ∧
    ((contact_post form url net).forwarded.isSome = true ∧
      (contact_post form url net).flash =
        some (Flash.success
          "Thanks, your message has been received. We\x27ll get back to you shortly.") ∧
      (contact_post form url net).status = 302 ∧
      (contact_post form url net).location = "/contact") ∧
    ((top_10_automations_post form url net).forwarded.isSome = true ∧
      (top_10_automations_post form url net).flash = none ∧
      (top_10_automations_post form url net).status = 302 ∧
      (top_10_automations_post form url net).location = "/top-10-automations/download") := by
  have hc := email_ok_cond _ hne hv
  rw [workflow_checklist_post_success form url net hc,
    automation_guide_post_success form url net hc,
    contact_post_success form url net hc,
    top_10_automations_post_success form url net hc]
  simp

/-- C3 witness: the amended claim evaluated on a concrete valid
submission. -/
theorem C3_valid_submission_outcomes_witness :
    (workflow_checklist_post goodForm none NetOutcome.timeout).status = 302 ∧
    (top_10_automations_post goodForm none NetOutcome.timeout).flash = none := by
  have h := C3_valid_submission_outcomes goodForm none NetOutcome.timeout
    (by decide) (by decide)
  exact ⟨h.1.2.2.1, h.2.2.2.2.1⟩

/-- C4 counterexample: a 302 webhook response is not a 2xx status, yet
`log_to_google_sheets` logs the success info line rather than an error
(`raise_for_status` raises only for 4xx/5xx), contradicting the claim
that a non-2xx response results in a logged error. -/
theorem C4_counterexample :
    (log_to_google_sheets (some "https://example.com/hook")
      [("email", "user@example.com".data)] (NetOutcome.response 302 "")).raised = false ∧
    (log_to_google_sheets (some "https://example.com/hook")
      [("email", "user@example.com".data)] (NetOutcome.response 302 "")).log =
      [LogLine.info "Logged to Google Sheets successfully"] ∧
    ¬(200 ≤ 302 ∧ 302 < 300) := by
  decide

/-- C4 (amended): `log_to_google_sheets` never raises to the caller, for
any configuration and network outcome; a timeout, connection error, or
4xx/5xx response (the statuses for which `raise_for_status` raises) is
absorbed and logged as an error; and the user-visible response of every
route handler is identical for every network outcome — exactly as if
forwarding had succeeded. -/
theorem C4_forwarding_failures_absorbed :
    (∀ (url : Option String) (fd : List (String × List Char)) (net : NetOutcome),
      (log_to_google_sheets url fd net).raised = false) ∧
    (∀ (url : Option String) (fd : List (String × List Char)) (net : NetOutcome),
      url ≠ none → url ≠ some "" →
      (net = NetOutcome.timeout ∨ net = NetOutcome.connectionError ∨
        (∃ st body, net = NetOutcome.response st body ∧ 400 ≤ st ∧ st < 600)) →
      (log_to_google_sheets url fd net).log =
        [LogLine.error "Error logging to Google Sheets"]) ∧
    (∀ (r : FormRoute) (form : String → Option (List Char))
        (url : Option String) (net net' : NetOutcome),
      handlerResponse (handlePost r form url net) =
        handlerResponse (handlePost r form url net')) := by
  refine ⟨log_never_raises, ?_, ?_⟩
  · intro url fd net hn hn2 hcause
    have hu : ¬(url = none ∨ url = some "") := by
      rintro (h | h)
      · exact hn h
      · exact hn2 h
    unfold log_to_google_sheets
    rw [if_neg hu]
    rcases hcause with rfl | rfl | ⟨st, body, rfl, h4, h6⟩
    · rfl
    · rfl
    · have hp : postAndRaiseForStatus (NetOutcome.response st body) =
          Except.error (PyExc.httpError st) := by
        simp only [postAndRaiseForStatus]
        rw [if_pos ⟨h4, h6⟩]
      rw [hp]
      rfl
  · intro r form url net net'
    by_cases hc : ((pyStrip (getField form "email")).isEmpty
        || !is_valid_email (pyStrip (getField form "email"))) = true
    · cases r <;>
        simp [handlePost, workflow_checklist_post, top_10_automations_post,
          automation_guide_post, contact_post, hc, handlerResponse]
    · have hc2 : ((pyStrip (getField form "email")).isEmpty
          || !is_valid_email (pyStrip (getField form "email"))) = false := by
        simpa using hc
      cases r <;>
        simp [handlePost, workflow_checklist_post, top_10_automations_post,
          automation_guide_post, contact_post, hc2, handlerResponse,
          log_never_raises]

/-- C4 witness: the amended claim evaluated at a concrete timeout. -/
theorem C4_forwarding_failures_absorbed_witness :
    (log_to_google_sheets (some "https://example.com/hook") [] NetOutcome.timeout).log =
      [LogLine.error "Error logging to Google Sheets"] ∧
    handlerResponse (handlePost FormRoute.workflowChecklist goodForm
        (some "https://example.com/hook") NetOutcome.timeout) =
      handlerResponse (handlePost FormRoute.workflowChecklist goodForm
        (some "https://example.com/hook") (NetOutcome.response 200 "ok")) :=
  ⟨C4_forwarding_failures_absorbed.2.1 (some "https://example.com/hook") []
      NetOutcome.timeout (by decide) (by decide) (Or.inl rfl),
    C4_forwarding_failures_absorbed.2.2 FormRoute.workflowChecklist goodForm
      (some "https://example.com/hook") NetOutcome.timeout
      (NetOutcome.response 200 "ok")⟩

/-- C5: with the webhook URL unset (or empty, which Python truthiness
treats the same), `log_to_google_sheets` returns normally without
attempting a network call and only logs the warning, for every submission
and every network oracle. -/
theorem C5_no_url_no_call (url : Option String)
    (fd : List (String × List Char)) (net : NetOutcome)
    (h : url = none ∨ url = some "") :
    log_to_google_sheets url fd net =
      { raised := false, posted := false,
        log := [LogLine.warning
          "G_SHEETS_WEBHOOK_URL not set; skipping Google Sheets logging."] } := by
  unfold log_to_google_sheets
  rw [if_pos h]

/-- C5 witness: the no-op outcome on a concrete submission with the URL
unset. -/
theorem C5_no_url_no_call_witness :
    log_to_google_sheets none [("email", "user@example.com".data)] NetOutcome.timeout =
      { raised := false, posted := false,
        log := [LogLine.warning
          "G_SHEETS_WEBHOOK_URL not set; skipping Google Sheets logging."] } :=
  C5_no_url_no_call none [("email", "user@example.com".data)] NetOutcome.timeout
    (Or.inl rfl)

/-- C6: `is_valid_email` accepts exactly the strings whose trimmed form
matches the anchored pattern (local part, `@`, domain part, dot, two-plus
letters); it is insensitive to surrounding whitespace, rejects empty,
whitespace-only, `@`-less and domain-dot-less strings, and does not
reject consecutive dots or leading/trailing dots before the `@`. -/
theorem C6_email_validator :
    (∀ s : List Char, is_valid_email s = true ↔ matchesEmailPattern (pyStrip s)) ∧
    (∀ s : List Char, is_valid_email (' ' :: s) = is_valid_email s) ∧
    (∀ s : List Char, is_valid_email (s ++ [' ']) = is_valid_email s) ∧
    (∀ s : List Char, '@' ∉ s → is_valid_email s = false) ∧
    (∀ s : List Char, (∀ c ∈ s, isPyWhitespace c = true) → is_valid_email s = false) ∧
    is_valid_email " a@b.com ".data = is_valid_email "a@b.com".data ∧
    is_valid_email "".data = false ∧
    is_valid_email "   ".data = false ∧
    is_valid_email "ab.com".data = false ∧
    is_valid_email "a@bcom".data = false ∧
    is_valid_email "user..name@example.com".data = true ∧
    is_valid_email ".user@example.com".data = true ∧
    is_valid_email "user.@example.com".data = true := by
  refine ⟨fun s => emailRegexMatch_iff (pyStrip s), is_valid_email_cons_space,
    is_valid_email_append_space, is_valid_email_no_at,
    is_valid_email_all_whitespace, by decide, by decide, by decide, by decide,
    by decide, by decide, by decide, by decide⟩

/-- C6 witness: the validator rejects a concrete `@`-less string, through
the general theorem. -/
theorem C6_email_validator_witness : is_valid_email "xy".data = false :=
  C6_email_validator.2.2.2.1 "xy".data (by decide)

/-- C7 counterexample: a fully filled, accepted contact submission is
forwarded with a payload that carries no `source` key at all. -/
theorem C7_counterexample :
    (contact_post fullContactForm none (NetOutcome.response 200 "ok")).forwarded.isSome
      = true ∧
    ((contact_post fullContactForm none
        (NetOutcome.response 200 "ok")).forwarded.getD []).lookup "source" = none ∧
    ((contact_post fullContactForm none
        (NetOutcome.response 200 "ok")).forwarded.getD []).lookup "email" =
      some "john@example.com".data := by
  decide

/-- C7 (amended): the three gated-content routes tag every forwarded
payload with their `source` string, but the general contact form forwards
its seven form fields without any `source` tag. -/
theorem C7_source_tags (form : String → Option (List Char))
    (url : Option String) (net : NetOutcome)
    (hne : pyStrip (getField form "email") ≠ [])
    (hv : is_valid_email (pyStrip (getField form "email")) = true) :
    ((workflow_checklist_post form url net).forwarded.getD []).lookup "source" =
      some "Workflow Checklist".data ∧
    ((top_10_automations_post form url net).forwarded.getD []).lookup "source" =
      some "Top 10 Automations Guide".data ∧
    ((automation_guide_post form url net).forwarded.getD []).lookup "source" =
      some "Automation Guide".data ∧
    ((contact_post form url net).forwarded.getD []).lookup "source" = none := by
  have hc := email_ok_cond _ hne hv
  rw [workflow_checklist_post_success form url net hc,
    top_10_automations_post_success form url net hc,
    automation_guide_post_success form url net hc,
    contact_post_success form url net hc]
  simp [List.lookup]

/-- C7 witness: the source tags evaluated on a concrete valid submission. -/
theorem C7_source_tags_witness :
    ((workflow_checklist_post fullContactForm none NetOutcome.timeout).forwarded.getD
      []).lookup "source" = some "Workflow Checklist".data ∧
    ((contact_post fullContactForm none NetOutcome.timeout).forwarded.getD
      []).lookup "source" = none := by
  have h := C7_source_tags fullContactForm none NetOutcome.timeout
    (by decide) (by decide)
  exact ⟨h.1, h.2.2.2⟩

/-- C8: on any form route, for any client, six requests within one minute
(in order, the last strictly less than 60 seconds after the first) are
answered as: the first five handled by the view function, the sixth
rejected by the rate limiter with HTTP 429 — whatever the six submitted
forms contain, valid or not, and without re-rendering the form. -/
theorem C8_rate_limit (r : FormRoute) (url : Option String) (net : NetOutcome)
    (t0 t1 t2 t3 t4 t5 : Nat)
    (f0 f1 f2 f3 f4 f5 : String → Option (List Char))
    (h01 : t0 ≤ t1) (h12 : t1 ≤ t2) (h23 : t2 ≤ t3) (h34 : t3 ≤ t4)
    (h45 : t4 ≤ t5) (hwin : t5 < t0 + 60) :
    runRequests r url net none
        [(t0, f0), (t1, f1), (t2, f2), (t3, f3), (t4, f4), (t5, f5)] =
      [RequestResult.handled (handlePost r f0 url net),
       RequestResult.handled (handlePost r f1 url net),
       RequestResult.handled (handlePost r f2 url net),
       RequestResult.handled (handlePost r f3 url net),
       RequestResult.handled (handlePost r f4 url net),
       RequestResult.rateLimited] ∧
    requestStatus RequestResult.rateLimited = 429 := by
  have e0 : limiterHit none t0 = (true, some { windowStart := t0, count := 1 }) := rfl
  have e1 : limiterHit (some { windowStart := t0, count := 1 }) t1
      = (true, some { windowStart := t0, count := 2 }) := by
    simp [limiterHit, show ¬(t0 + 60 ≤ t1) from by omega]
  have e2 : limiterHit (some { windowStart := t0, count := 2 }) t2
      = (true, some { windowStart := t0, count := 3 }) := by
    simp [limiterHit, show ¬(t0 + 60 ≤ t2) from by omega]
  have e3 : limiterHit (some { windowStart := t0, count := 3 }) t3
      = (true, some { windowStart := t0, count := 4 }) := by
    simp [limiterHit, show ¬(t0 + 60 ≤ t3) from by omega]
  have e4 : limiterHit (some { windowStart := t0, count := 4 }) t4
      = (true, some { windowStart := t0, count := 5 }) := by
    simp [limiterHit, show ¬(t0 + 60 ≤ t4) from by omega]
  have e5 : limiterHit (some { windowStart := t0, count := 5 }) t5
      = (false, some { windowStart := t0, count := 5 }) := by
    simp [limiterHit, show ¬(t0 + 60 ≤ t5) from by omega]
  refine ⟨?_, rfl⟩
  simp [runRequests, handleRequest, e0, e1, e2, e3, e4, e5]

/-- C8 witness: six concrete requests in one window, the sixth rejected. -/
theorem C8_rate_limit_witness :
    runRequests FormRoute.contact none NetOutcome.timeout none
        [(0, emptyForm), (10, emptyForm), (20, emptyForm), (30, emptyForm),
         (40, emptyForm), (50, emptyForm)] =
      [RequestResult.handled (handlePost FormRoute.contact emptyForm none NetOutcome.timeout),
       RequestResult.handled (handlePost FormRoute.contact emptyForm none NetOutcome.timeout),
       RequestResult.handled (handlePost FormRoute.contact emptyForm none NetOutcome.timeout),
       RequestResult.handled (handlePost FormRoute.contact emptyForm none NetOutcome.timeout),
       RequestResult.handled (handlePost FormRoute.contact emptyForm none NetOutcome.timeout),
       RequestResult.rateLimited] ∧
    requestStatus RequestResult.rateLimited = 429 :=
  C8_rate_limit FormRoute.contact none NetOutcome.timeout 0 10 20 30 40 50
    emptyForm emptyForm emptyForm emptyForm emptyForm emptyForm
    (by decide) (by decide) (by decide) (by decide) (by decide) (by decide)

theorem add_security_headers_of_absent (hs : List (String × String))
    (h1 : hs.lookup "X-Frame-Options" = none)
    (h2 : hs.lookup "X-Content-Type-Options" = none)
    (h3 : hs.lookup "Referrer-Policy" = none)
    (h4 : hs.lookup "X-XSS-Protection" = none)
    (h5 : hs.lookup "Strict-Transport-Security" = none) :
    add_security_headers hs = hs ++ securityHeaderPairs := by
  unfold add_security_headers
  rw [setdefault_of_none _ _ _ h1]
  rw [setdefault_of_none _ _ _ (by rw [lookup_append_none _ _ _ h2]; decide :
    (hs ++ [("X-Frame-Options", "SAMEORIGIN")]).lookup "X-Content-Type-Options"
      = none)]
  simp only [List.append_assoc, List.cons_append, List.nil_append]
  rw [setdefault_of_none _ _ _ (by rw [lookup_append_none _ _ _ h3]; decide :
    (hs ++ [("X-Frame-Options", "SAMEORIGIN"),
      ("X-Content-Type-Options", "nosniff")]).lookup "Referrer-Policy" = none)]
  simp only [List.append_assoc, List.cons_append, List.nil_append]
  rw [setdefault_of_none _ _ _ (by rw [lookup_append_none _ _ _ h4]; decide :
    (hs ++ [("X-Frame-Options", "SAMEORIGIN"),
      ("X-Content-Type-Options", "nosniff"),
      ("Referrer-Policy", "strict-origin-when-cross-origin")]).lookup
        "X-XSS-Protection" = none)]
  simp only [List.append_assoc, List.cons_append, List.nil_append]
  rw [setdefault_of_none _ _ _ (by rw [lookup_append_none _ _ _ h5]; decide :
    (hs ++ [("X-Frame-Options", "SAMEORIGIN"),
      ("X-Content-Type-Options", "nosniff"),
      ("Referrer-Policy", "strict-origin-when-cross-origin"),
      ("X-XSS-Protection", "1; mode=block")]).lookup
        "Strict-Transport-Security" = none)]
  simp only [List.append_assoc, List.cons_append, List.nil_append]
  rfl

/-- C9: `add_security_headers` runs on every response; each of the five
security header keys is present afterwards, and on a response that does
not already carry them (no view in the application sets any of them) they
receive exactly the fixed values from the source. -/
theorem C9_security_headers :
    (∀ hs : List (String × String),
      ((add_security_headers hs).lookup "X-Frame-Options").isSome = true ∧
      ((add_security_headers hs).lookup "X-Content-Type-Options").isSome = true ∧
      ((add_security_headers hs).lookup "Referrer-Policy").isSome = true ∧
      ((add_security_headers hs).lookup "X-XSS-Protection").isSome = true ∧
      ((add_security_headers hs).lookup "Strict-Transport-Security").isSome = true) ∧
    (∀ hs : List (String × String),
      hs.lookup "X-Frame-Options" = none →
      hs.lookup "X-Content-Type-Options" = none →
      hs.lookup "Referrer-Policy" = none →
      hs.lookup "X-XSS-Protection" = none →
      hs.lookup "Strict-Transport-Security" = none →
      (add_security_headers hs).lookup "X-Frame-Options" = some "SAMEORIGIN" ∧
      (add_security_headers hs).lookup "X-Content-Type-Options" = some "nosniff" ∧
      (add_security_headers hs).lookup "Referrer-Policy"
        = some "strict-origin-when-cross-origin" ∧
      (add_security_headers hs).lookup "X-XSS-Protection" = some "1; mode=block" ∧
      (add_security_headers hs).lookup "Strict-Transport-Security"
        = some "max-age=31536000; includeSubDomains") := by
  constructor
  · intro hs
    unfold add_security_headers
    refine ⟨?_, ?_, ?_, ?_, ?_⟩
    · exact setdefault_isSome_mono _ _ _ _ (setdefault_isSome_mono _ _ _ _
        (setdefault_isSome_mono _ _ _ _ (setdefault_isSome_mono _ _ _ _
          (setdefault_isSome_self _ _ _))))
    · exact setdefault_isSome_mono _ _ _ _ (setdefault_isSome_mono _ _ _ _
        (setdefault_isSome_mono _ _ _ _ (setdefault_isSome_self _ _ _)))
    · exact setdefault_isSome_mono _ _ _ _ (setdefault_isSome_mono _ _ _ _
        (setdefault_isSome_self _ _ _))
    · exact setdefault_isSome_mono _ _ _ _ (setdefault_isSome_self _ _ _)
    · exact setdefault_isSome_self _ _ _
  · intro hs h1 h2 h3 h4 h5
    rw [add_security_headers_of_absent hs h1 h2 h3 h4 h5]
    refine ⟨?_, ?_, ?_, ?_, ?_⟩
    · rw [lookup_append_none _ _ _ h1]; decide
    · rw [lookup_append_none _ _ _ h2]; decide
    · rw [lookup_append_none _ _ _ h3]; decide
    · rw [lookup_append_none _ _ _ h4]; decide
    · rw [lookup_append_none _ _ _ h5]; decide

/-- C9 witness: the headers added to a response that starts with none. -/
theorem C9_security_headers_witness :
    (add_security_headers []).lookup "X-Frame-Options" = some "SAMEORIGIN" ∧
    (add_security_headers []).lookup "Strict-Transport-Security"
      = some "max-age=31536000; includeSubDomains" := by
  have h := C9_security_headers.2 [] rfl rfl rfl rfl rfl
  exact ⟨h.1, h.2.2.2.2⟩

/-- C10: with `FLASK_SECRET_KEY` unset, the application signs its one-shot
flash state with the hardcoded fallback "change-this-secret-key", and the
flash mechanism still works: a message flashed under that key is read
back intact on the next request. -/
theorem C10_secret_key_fallback (env : String → Option String)
    (h : env "FLASK_SECRET_KEY" = none) :
    secret_key env = "change-this-secret-key" ∧
    ∀ msg, flashRoundtrip (secret_key env) msg = some [msg] := by
  constructor
  · simp [secret_key, h]
  · intro msg
    simp [flashRoundtrip, readSession, signSession]

/-- C10 witness: the fallback key and a concrete flash roundtrip under it. -/
theorem C10_secret_key_fallback_witness :
    secret_key emptyEnv = "change-this-secret-key" ∧
    flashRoundtrip (secret_key emptyEnv) "hello" = some ["hello"] :=
  ⟨(C10_secret_key_fallback emptyEnv rfl).1,
    (C10_secret_key_fallback emptyEnv rfl).2 "hello"⟩

end PeakOps
